import Mathlib

/-!
Shallow embedding of the admin user-management routes of the tai-xiang
leave system (`src/server/src/routes/users.ts`) and of the change-password
form component (`src/leave_system/src/components/user/ChangePassword.tsx`),
with theorems settling the specification claims about them.

Conventions of the embedding:
* JavaScript strings become `String`, JavaScript numbers used as leave
  quotas become `ℚ` (the routes treat them as exact decimals such as 14.0).
* A request-body field that may be absent (`undefined`) becomes an
  `Option` value; JavaScript truthiness tests `!x` on strings are the
  test for `none` or the empty string, and `x || d` on quota numbers is
  the test for `none` or `0`.
* Each route handler becomes a pure function from the current account
  store and the request data to a pair of an optional typed error
  (the spec's error taxonomy) and the resulting store.
-/

namespace TaiXiang

/-- An employee account as stored by the server and returned by
`GET /admin/users` (employeeId, name, password, permission string and the
four annual quota fields). -/
structure User where
  employeeId : String
  name : String
  password : String
  permission : String
  annualLeave : ℚ
  sickLeave : ℚ
  menstrualLeave : ℚ
  personalLeave : ℚ
deriving Repr, DecidableEq

/-- Modelled from the spec: the Account Quota Store backing
`PersonalDataService` is not under `src/`; per the spec it holds one
account per `employeeId`.  We model it as the list of accounts. -/
abbrev Store := List User

/-- Modelled from the spec: `PersonalDataService.findByEmployeeId` returns
the account with the given `employeeId`, if any. -/
def findByEmployeeId (s : Store) (eid : String) : Option User :=
  s.find? (fun u => u.employeeId == eid)

/-- Modelled from the spec: `PersonalDataService.getAllUsers` returns the
full account list. -/
def getAllUsers (s : Store) : List User := s

/-- Modelled from the spec: `PersonalDataService.addUser` appends a new
account. -/
def addUser (s : Store) (u : User) : Store := s ++ [u]

/-- Modelled from the spec: `PersonalDataService.updateUser` replaces the
account with the given `employeeId`. -/
def updateUser (s : Store) (eid : String) (u : User) : Store :=
  s.map (fun v => if v.employeeId == eid then u else v)

/-- Modelled from the spec: `PersonalDataService.deleteUser` removes the
account with the given `employeeId`. -/
def deleteUser (s : Store) (eid : String) : Store :=
  s.filter (fun v => v.employeeId != eid)

/-- The spec's error taxonomy for the account routes.  In the code these
surface as HTTP 400/404/409 responses with localized messages; both the
missing-required-field response and the invalid-permission-value response
are `ValidationError` per the taxonomy. -/
inductive RouteError
  | ValidationError
  | ConflictError
  | NotFoundError
  | SelfDeletionError
deriving Repr, DecidableEq

/-- Request body of `POST /admin/users` and `PUT /admin/users/:employeeId`.
Every field may be absent.  (`employeeId` is ignored by the PUT handler,
which takes the id from the URL parameter.) -/
structure UserBody where
  employeeId : Option String := none
  name : Option String := none
  password : Option String := none
  permission : Option String := none
  annualLeave : Option ℚ := none
  sickLeave : Option ℚ := none
  menstrualLeave : Option ℚ := none
  personalLeave : Option ℚ := none
deriving Repr, DecidableEq

/-- JavaScript truthiness of an optional string: `!x` is true exactly when
the field is absent or the empty string. -/
def truthyS (o : Option String) : Bool :=
  match o with
  | none => false
  | some s => s != ""

/-- JavaScript `x || d` for an optional quota number: absent, or present
and equal to `0` (falsy), yields the default `d`. -/
def numOr (o : Option ℚ) (d : ℚ) : ℚ :=
  match o with
  | none => d
  | some v => if v == 0 then d else v

/-- JavaScript `v || d` for a number already known to be defined. -/
def orDefault (v d : ℚ) : ℚ := if v == 0 then d else v

/-- The permission values accepted by the create and update handlers
(`['employee', 'admin'].includes(permission)` in the code). -/
def validPermissionValues : List String := ["employee", "admin"]

/-- `POST /admin/users` (新增用戶): required-field check, permission-value
check, duplicate-`employeeId` check, then insertion with `|| default`
quota fallbacks (14, 30, 3, 14). -/
def postUser (s : Store) (b : UserBody) : Option RouteError × Store :=
  if !truthyS b.employeeId || !truthyS b.name || !truthyS b.password
      || !truthyS b.permission then
    (some .ValidationError, s)
  else if !(validPermissionValues.contains (b.permission.getD "")) then
    (some .ValidationError, s)
  else
    match findByEmployeeId s (b.employeeId.getD "") with
    | some _ => (some .ConflictError, s)
    | none =>
        (none, addUser s
          { employeeId := b.employeeId.getD ""
            name := b.name.getD ""
            password := b.password.getD ""
            permission := b.permission.getD ""
            annualLeave := numOr b.annualLeave 14
            sickLeave := numOr b.sickLeave 30
            menstrualLeave := numOr b.menstrualLeave 3
            personalLeave := numOr b.personalLeave 14 })

/-- `PUT /admin/users/:employeeId` (更新用戶): required-field check,
permission-value check, existence check, then replacement.  Quota fields
absent from the body (`!== undefined` in the code) keep the stored value,
except that the `personalLeave` fallback is `existingUser.personalLeave || 14.0`. -/
def putUser (s : Store) (eid : String) (b : UserBody) : Option RouteError × Store :=
  if !truthyS b.name || !truthyS b.password || !truthyS b.permission then
    (some .ValidationError, s)
  else if !(validPermissionValues.contains (b.permission.getD "")) then
    (some .ValidationError, s)
  else
    match findByEmployeeId s eid with
    | none => (some .NotFoundError, s)
    | some existingUser =>
        (none, updateUser s eid
          { employeeId := eid
            name := b.name.getD ""
            password := b.password.getD ""
            permission := b.permission.getD ""
            annualLeave := b.annualLeave.getD existingUser.annualLeave
            sickLeave := b.sickLeave.getD existingUser.sickLeave
            menstrualLeave := b.menstrualLeave.getD existingUser.menstrualLeave
            personalLeave := b.personalLeave.getD
              (orDefault existingUser.personalLeave 14) })

/-- `DELETE /admin/users/:employeeId` (刪除用戶): existence check, then the
self-deletion guard (`req.user?.employeeId === employeeId`), then removal.
`caller` is the authenticated admin's `employeeId`. -/
def deleteRoute (s : Store) (caller : String) (eid : String) :
    Option RouteError × Store :=
  match findByEmployeeId s eid with
  | none => (some .NotFoundError, s)
  | some _ =>
      if caller == eid then (some .SelfDeletionError, s)
      else (none, deleteUser s eid)

/-- One entry of the `responseData` array returned by `GET /admin/users`:
the eight projected fields with the raw permission string. -/
structure UserView where
  employeeId : String
  name : String
  password : String
  permission : String
  annualLeave : ℚ
  sickLeave : ℚ
  menstrualLeave : ℚ
  personalLeave : ℚ
deriving Repr, DecidableEq

/-- The projection applied to each user by `GET /admin/users`. -/
def toUserView (u : User) : UserView :=
  { employeeId := u.employeeId
    name := u.name
    password := u.password
    permission := u.permission
    annualLeave := u.annualLeave
    sickLeave := u.sickLeave
    menstrualLeave := u.menstrualLeave
    personalLeave := u.personalLeave }

/-- `GET /admin/users` (獲取所有用戶): maps every stored account to its
eight-field view. -/
def getUsersRoute (s : Store) : List UserView :=
  (getAllUsers s).map toUserView

/-! ### CSV export (`POST /admin/users/export`) -/

/-- One row written to the exported CSV file (the `formattedUsers`
projection in the code). -/
structure CsvRow where
  employeeId : String
  name : String
  password : String
  permission : String
  annualLeave : ℚ
  sickLeave : ℚ
  menstrualLeave : ℚ
  personalLeave : ℚ
deriving Repr, DecidableEq

/-- The localization applied to the permission field in the export:
`user.permission === 'admin' ? '管理者' : '員工'`. -/
def localizePermission (p : String) : String :=
  if p == "admin" then "管理者" else "員工"

/-- The per-user formatting step of the export (`formattedUsers`):
localized permission and `|| 0` quota fallbacks. -/
def formatUser (u : User) : CsvRow :=
  { employeeId := u.employeeId
    name := u.name
    password := u.password
    permission := localizePermission u.permission
    annualLeave := orDefault u.annualLeave 0
    sickLeave := orDefault u.sickLeave 0
    menstrualLeave := orDefault u.menstrualLeave 0
    personalLeave := orDefault u.personalLeave 0 }

/-- `String(x).padStart(2, '0')` as used on the month and day. -/
def padStart2 (s : String) : String :=
  if s.length ≥ 2 then s
  else String.mk (List.replicate (2 - s.length) '0') ++ s

/-- The export filename: `請假系統權限資料${year}${month}${day}.csv` where
`year = now.getFullYear()`, `month = String(now.getMonth() + 1).padStart(2, '0')`
and `day = String(now.getDate()).padStart(2, '0')`.  `month` here is the
1-based calendar month (the code adds 1 to the 0-based `getMonth()`). -/
def exportFilename (year month day : ℕ) : String :=
  "請假系統權限資料" ++ toString year ++ padStart2 (toString month)
    ++ padStart2 (toString day) ++ ".csv"

/-- Events for which the export route registers a handler on the file
stream that unlinks the temporary file.  The code registers exactly one
handler, `fileStream.on('end', ... fs.unlink ...)`; no handler is attached
to the stream's `error` event and the `catch` block does not unlink. -/
def exportUnlinkEvents : List String := ["end"]

/-- Whether the export route deletes the temporary file when the given
stream event fires. -/
def tempFileDeletedOn (event : String) : Bool :=
  exportUnlinkEvents.contains event

/-- The read-side outcome of `POST /admin/users/export`: the generated
filename and the rows written to the (temporary) CSV file.  The route
reads the store and never mutates it. -/
def exportRoute (s : Store) (year month day : ℕ) : String × List CsvRow :=
  (exportFilename year month day, (getAllUsers s).map formatUser)

/-- The projection taking one `GET /admin/users` entry to the
corresponding exported CSV row: same eight fields, permission localized,
`|| 0` applied to the quota values. -/
def viewToCsvRow (v : UserView) : CsvRow :=
  { employeeId := v.employeeId
    name := v.name
    password := v.password
    permission := localizePermission v.permission
    annualLeave := orDefault v.annualLeave 0
    sickLeave := orDefault v.sickLeave 0
    menstrualLeave := orDefault v.menstrualLeave 0
    personalLeave := orDefault v.personalLeave 0 }

/-! ### Change-password form (`ChangePassword.tsx`) -/

/-- JavaScript `String.prototype.trim`: strip leading and trailing
whitespace.  Modelled structurally on the character list so that it is
kernel-computable. -/
def jsTrim (s : String) : String :=
  String.mk (((s.data.dropWhile Char.isWhitespace).reverse.dropWhile
    Char.isWhitespace).reverse)

/-- The change-password form state (`ChangePasswordFormData`). -/
structure ChangePasswordFormData where
  currentPassword : String
  newPassword : String
  confirmPassword : String
deriving Repr, DecidableEq

/-- The per-field error messages produced by `validateForm`
(`ChangePasswordFormErrors`); `none` means the key is absent. -/
structure ChangePasswordFormErrors where
  currentPassword : Option String
  newPassword : Option String
  confirmPassword : Option String
deriving Repr, DecidableEq

/-- `validateForm` from `ChangePassword.tsx`: empty-after-trim checks,
minimum length 4 on the new password, confirmation match, and the
new-equals-current check (which overwrites any earlier `newPassword`
error, as the last assignment wins in the code). -/
def validateForm (f : ChangePasswordFormData) : ChangePasswordFormErrors :=
  let eCur : Option String :=
    if jsTrim f.currentPassword == "" then some "請輸入目前密碼" else none
  let eNew : Option String :=
    if jsTrim f.newPassword == "" then some "請輸入新密碼"
    else if f.newPassword.length < 4 then some "新密碼至少需要4個字符"
    else none
  let eConf : Option String :=
    if jsTrim f.confirmPassword == "" then some "請確認新密碼"
    else if f.newPassword != f.confirmPassword then some "新密碼與確認密碼不一致"
    else none
  let eNew2 : Option String :=
    if f.currentPassword == f.newPassword then some "新密碼不能與目前密碼相同"
    else eNew
  { currentPassword := eCur, newPassword := eNew2, confirmPassword := eConf }

/-- `Object.keys(newErrors).length === 0`: the form passes validation when
no error key was set. -/
def formPasses (f : ChangePasswordFormData) : Bool :=
  (validateForm f).currentPassword == none
    && (validateForm f).newPassword == none
    && (validateForm f).confirmPassword == none

/-- `handleSubmit`: if validation fails nothing is sent; otherwise the
request body `{currentPassword, newPassword}` is sent to
`PUT /user/change-password`. -/
def handleSubmit (f : ChangePasswordFormData) : Option (String × String) :=
  if formPasses f then some (f.currentPassword, f.newPassword) else none

/-- The account inserted by a successful `POST /admin/users` (the record
literal passed to `personalDataService.addUser`). -/
def createdUser (b : UserBody) : User :=
  { employeeId := b.employeeId.getD ""
    name := b.name.getD ""
    password := b.password.getD ""
    permission := b.permission.getD ""
    annualLeave := numOr b.annualLeave 14
    sickLeave := numOr b.sickLeave 30
    menstrualLeave := numOr b.menstrualLeave 3
    personalLeave := numOr b.personalLeave 14 }

/-- The account written by a successful `PUT /admin/users/:employeeId`
(the record literal passed to `personalDataService.updateUser`), given the
previously stored account `u`. -/
def updatedUser (eid : String) (b : UserBody) (u : User) : User :=
  { employeeId := eid
    name := b.name.getD ""
    password := b.password.getD ""
    permission := b.permission.getD ""
    annualLeave := b.annualLeave.getD u.annualLeave
    sickLeave := b.sickLeave.getD u.sickLeave
    menstrualLeave := b.menstrualLeave.getD u.menstrualLeave
    personalLeave := b.personalLeave.getD (orDefault u.personalLeave 14) }

/-- Concrete creation request used to witness the default-quota claim:
all four quota fields unspecified. -/
def C4body : UserBody :=
  { employeeId := some "E2", name := some "新人", password := some "pw"
    permission := some "employee" }

/-- Concrete creation request used to witness the duplicate-id claim:
well-formed, but reusing the stored `employeeId` `E1`. -/
def C5body : UserBody :=
  { employeeId := some "E1", name := some "x", password := some "y"
    permission := some "employee" }

/-- Concrete request used to witness the invalid-permission claim:
permission value `boss` is neither `employee` nor `admin`. -/
def C6body : UserBody :=
  { employeeId := some "E2", name := some "x", password := some "y"
    permission := some "boss" }

/-- Concrete well-formed update request used to witness the unknown-target
claim. -/
def C7body : UserBody :=
  { name := some "x", password := some "y", permission := some "employee" }

/-- Concrete creation request used to witness the zero-quota claim: all
four quota fields explicitly `0`. -/
def C10body : UserBody :=
  { employeeId := some "E2", name := some "x", password := some "y"
    permission := some "employee", annualLeave := some 0, sickLeave := some 0
    menstrualLeave := some 0, personalLeave := some 0 }

/-- The stored account used to refute the literal partial-update claim:
its `personalLeave` quota is `0` (reachable by an explicit update, since
`!== undefined` keeps an explicit `0`). -/
def C3storedUser : User := ⟨"E1", "舊名", "p", "employee", 14, 30, 3, 0⟩

/-- The update request used on `C3storedUser`: it supplies the three
required fields and omits every quota field. -/
def C3body : UserBody :=
  { name := some "新名", password := some "p2", permission := some "employee" }

/-! ### Helper lemmas -/

theorem postUser_success (s : Store) (b : UserBody)
    (hid : truthyS b.employeeId = true) (hname : truthyS b.name = true)
    (hpass : truthyS b.password = true) (hperm : truthyS b.permission = true)
    (hval : validPermissionValues.contains (b.permission.getD "") = true)
    (hfresh : findByEmployeeId s (b.employeeId.getD "") = none) :
    postUser s b = (none, addUser s (createdUser b)) := by
  unfold postUser
  rw [hid, hname, hpass, hperm, hval, hfresh]
  simp [createdUser]

theorem putUser_success (s : Store) (eid : String) (b : UserBody) (u : User)
    (hname : truthyS b.name = true) (hpass : truthyS b.password = true)
    (hperm : truthyS b.permission = true)
    (hval : validPermissionValues.contains (b.permission.getD "") = true)
    (hfind : findByEmployeeId s eid = some u) :
    putUser s eid b = (none, updateUser s eid (updatedUser eid b u)) := by
  unfold putUser
  rw [hname, hpass, hperm, hval, hfind]
  simp [updatedUser]

theorem findByEmployeeId_addUser_self (s : Store) (u : User)
    (hfresh : findByEmployeeId s u.employeeId = none) :
    findByEmployeeId (addUser s u) u.employeeId = some u := by
  unfold findByEmployeeId addUser at *
  rw [List.find?_append, hfresh]
  simp

theorem findByEmployeeId_updateUser_self (s : Store) (eid : String) (w : User)
    (hw : w.employeeId = eid) (hex : (findByEmployeeId s eid).isSome = true) :
    findByEmployeeId (updateUser s eid w) eid = some w := by
  have hweq : (w.employeeId == eid) = true := by
    rw [hw]
    simp
  induction s with
  | nil => simp [findByEmployeeId] at hex
  | cons v t ih =>
      unfold findByEmployeeId at hex
      unfold findByEmployeeId updateUser at ih ⊢
      simp only [List.map_cons]
      by_cases h : (v.employeeId == eid) = true
      · rw [if_pos h]
        exact List.find?_cons_of_pos _ hweq
      · have h' : (v.employeeId == eid) = false := by
          simpa using h
        rw [if_neg h]
        rw [List.find?_cons, h']
        rw [List.find?_cons, h'] at hex
        exact ih hex

theorem mem_updateUser_of_ne (s : Store) (eid : String) (w v : User)
    (hv : v ∈ s) (hne : v.employeeId ≠ eid) : v ∈ updateUser s eid w := by
  unfold updateUser
  have heq : (fun x => if x.employeeId == eid then w else x) v = v := by
    simp [hne]
  exact heq ▸ List.mem_map_of_mem _ hv

/-! ### Claims -/

/-- C1: a `DELETE /admin/users/:employeeId` request whose target exists and
equals the acting caller's own `employeeId` fails with `SelfDeletionError`,
leaves the store unchanged, and the account is still present in a
subsequent `GET /admin/users` listing. -/
theorem C1_self_deletion (s : Store) (caller eid : String) (u : User)
    (hfind : findByEmployeeId s eid = some u) (hself : caller = eid) :
    (deleteRoute s caller eid).1 = some RouteError.SelfDeletionError ∧
    (deleteRoute s caller eid).2 = s ∧
    ∃ v ∈ getUsersRoute (deleteRoute s caller eid).2, v.employeeId = eid := by
  subst hself
  have hmem : u ∈ s := List.mem_of_find?_eq_some hfind
  have hid : u.employeeId = caller := by
    have h := List.find?_some hfind
    simpa using h
  have hroute : deleteRoute s caller caller = (some .SelfDeletionError, s) := by
    unfold deleteRoute
    rw [hfind]
    simp
  refine ⟨by rw [hroute], by rw [hroute], ?_⟩
  rw [hroute]
  exact ⟨toUserView u, List.mem_map_of_mem _ hmem, hid⟩

/-- C1 witness: concrete self-deletion attempt on a one-account store. -/
theorem C1_self_deletion_witness :
    (deleteRoute [⟨"E1", "n", "p", "admin", 14, 30, 3, 14⟩] "E1" "E1").1
      = some RouteError.SelfDeletionError :=
  (C1_self_deletion [⟨"E1", "n", "p", "admin", 14, 30, 3, 14⟩] "E1" "E1"
    ⟨"E1", "n", "p", "admin", 14, 30, 3, 14⟩ (by decide) rfl).1

/-- C2 counterexample: the claim that the temporary export file is also
deleted on error is false.  The route registers an unlink handler only for
the stream's `end` event; no handler is attached to `error` and the
`catch` block does not unlink, so on a stream error the temporary file is
not deleted. -/
theorem C2_export_counterexample : tempFileDeletedOn "error" = false := rfl

/-- C2 (amended): the CSV export is a read-only projection of the
`GET /admin/users` listing into rows {employeeId, name, password,
localized permission, annualLeave, sickLeave, menstrualLeave,
personalLeave}; the filename is the prefix `請假系統權限資料` followed by a
4-digit year, 2-digit month and 2-digit day and `.csv`; the temporary file
is deleted after a successful transfer (`end`), but not on a stream
error. -/
theorem C2_export (s : Store) (y m d : ℕ)
    (hy1 : 2000 ≤ y) (hy2 : y < 2100)
    (hm1 : 1 ≤ m) (hm2 : m ≤ 12) (hd1 : 1 ≤ d) (hd2 : d ≤ 31) :
    (exportRoute s y m d).2 = (getUsersRoute s).map viewToCsvRow ∧
    (exportRoute s y m d).1 =
      "請假系統權限資料" ++ toString y ++ padStart2 (toString m)
        ++ padStart2 (toString d) ++ ".csv" ∧
    ((toString y).length = 4 ∧ ((toString y).data.all Char.isDigit) = true) ∧
    ((padStart2 (toString m)).length = 2 ∧
      ((padStart2 (toString m)).data.all Char.isDigit) = true) ∧
    ((padStart2 (toString d)).length = 2 ∧
      ((padStart2 (toString d)).data.all Char.isDigit) = true) ∧
    tempFileDeletedOn "end" = true ∧
    tempFileDeletedOn "error" = false := by
  refine ⟨?_, rfl, ?_, ?_, ?_, rfl, rfl⟩
  · unfold exportRoute getUsersRoute getAllUsers
    rw [List.map_map]
    rfl
  · interval_cases y <;> exact ⟨rfl, rfl⟩
  · interval_cases m <;> exact ⟨rfl, rfl⟩
  · interval_cases d <;> exact ⟨rfl, rfl⟩

/-- C2 witness: the export of a one-account store on 2026-10-11 produces
the filename `請假系統權限資料20261011.csv`. -/
theorem C2_export_witness :
    (exportRoute [⟨"E1", "n", "p", "admin", 14, 30, 3, 14⟩] 2026 10 11).1 =
      "請假系統權限資料20261011.csv" :=
  (C2_export [⟨"E1", "n", "p", "admin", 14, 30, 3, 14⟩] 2026 10 11
    (by decide) (by decide) (by decide) (by decide) (by decide)
    (by decide)).2.1

/-- C3 counterexample: the claim that every field omitted from the update
body leaves the stored field unchanged is false.  On an account whose
stored `personalLeave` is `0`, an update omitting `personalLeave`
succeeds and stores `14` (the handler's fallback is
`existingUser.personalLeave || 14.0`, and `0` is falsy). -/
theorem C3_partial_update_counterexample :
    C3body.personalLeave = none ∧
    C3storedUser.personalLeave = 0 ∧
    (putUser [C3storedUser] "E1" C3body).1 = none ∧
    findByEmployeeId (putUser [C3storedUser] "E1" C3body).2 "E1" =
      some ⟨"E1", "新名", "p2", "employee", 14, 30, 3, 14⟩ := by
  decide

/-- C3 (amended): an update that passes validation and finds its target
replaces the supplied fields; `name`, `password` and `permission` are
required (omitting one fails with `ValidationError`); an omitted
`annualLeave`, `sickLeave` or `menstrualLeave` keeps the stored value; an
omitted `personalLeave` keeps the stored value only when it is nonzero and
otherwise resets to the default `14`; accounts with other ids are kept. -/
theorem C3_partial_update (s : Store) (eid : String) (b : UserBody) (u : User)
    (hname : truthyS b.name = true) (hpass : truthyS b.password = true)
    (hperm : truthyS b.permission = true)
    (hval : validPermissionValues.contains (b.permission.getD "") = true)
    (hfind : findByEmployeeId s eid = some u) :
    (putUser s eid b).1 = none ∧
    (∀ v ∈ s, v.employeeId ≠ eid → v ∈ (putUser s eid b).2) ∧
    ∃ w, findByEmployeeId (putUser s eid b).2 eid = some w ∧
      (∀ x, b.name = some x → w.name = x) ∧
      (∀ x, b.password = some x → w.password = x) ∧
      (∀ x, b.permission = some x → w.permission = x) ∧
      (∀ q, b.annualLeave = some q → w.annualLeave = q) ∧
      (∀ q, b.sickLeave = some q → w.sickLeave = q) ∧
      (∀ q, b.menstrualLeave = some q → w.menstrualLeave = q) ∧
      (∀ q, b.personalLeave = some q → w.personalLeave = q) ∧
      (b.annualLeave = none → w.annualLeave = u.annualLeave) ∧
      (b.sickLeave = none → w.sickLeave = u.sickLeave) ∧
      (b.menstrualLeave = none → w.menstrualLeave = u.menstrualLeave) ∧
      (b.personalLeave = none → u.personalLeave ≠ 0 →
        w.personalLeave = u.personalLeave) ∧
      (b.personalLeave = none → u.personalLeave = 0 →
        w.personalLeave = 14) := by
  rw [putUser_success s eid b u hname hpass hperm hval hfind]
  have hex : (findByEmployeeId s eid).isSome = true := by
    rw [hfind]
    rfl
  refine ⟨rfl, ?_, updatedUser eid b u, ?_, ?_, ?_, ?_, ?_, ?_, ?_, ?_, ?_,
    ?_, ?_, ?_, ?_⟩
  · intro v hv hne
    exact mem_updateUser_of_ne s eid (updatedUser eid b u) v hv hne
  · exact findByEmployeeId_updateUser_self s eid (updatedUser eid b u) rfl hex
  · intro x hx; simp [updatedUser, hx]
  · intro x hx; simp [updatedUser, hx]
  · intro x hx; simp [updatedUser, hx]
  · intro q hq; simp [updatedUser, hq]
  · intro q hq; simp [updatedUser, hq]
  · intro q hq; simp [updatedUser, hq]
  · intro q hq; simp [updatedUser, hq]
  · intro h; simp [updatedUser, h]
  · intro h; simp [updatedUser, h]
  · intro h; simp [updatedUser, h]
  · intro h h0; simp [updatedUser, orDefault, h, h0]
  · intro h h0; simp [updatedUser, orDefault, h, h0]

/-- C3 witness: the amended statement applied to the concrete
zero-`personalLeave` account and quota-less update body. -/
theorem C3_partial_update_witness :
    (putUser [C3storedUser] "E1" C3body).1 = none ∧
    (∀ v ∈ [C3storedUser], v.employeeId ≠ "E1" →
      v ∈ (putUser [C3storedUser] "E1" C3body).2) ∧
    ∃ w, findByEmployeeId (putUser [C3storedUser] "E1" C3body).2 "E1" = some w ∧
      (∀ x, C3body.name = some x → w.name = x) ∧
      (∀ x, C3body.password = some x → w.password = x) ∧
      (∀ x, C3body.permission = some x → w.permission = x) ∧
      (∀ q, C3body.annualLeave = some q → w.annualLeave = q) ∧
      (∀ q, C3body.sickLeave = some q → w.sickLeave = q) ∧
      (∀ q, C3body.menstrualLeave = some q → w.menstrualLeave = q) ∧
      (∀ q, C3body.personalLeave = some q → w.personalLeave = q) ∧
      (C3body.annualLeave = none → w.annualLeave = C3storedUser.annualLeave) ∧
      (C3body.sickLeave = none → w.sickLeave = C3storedUser.sickLeave) ∧
      (C3body.menstrualLeave = none →
        w.menstrualLeave = C3storedUser.menstrualLeave) ∧
      (C3body.personalLeave = none → C3storedUser.personalLeave ≠ 0 →
        w.personalLeave = C3storedUser.personalLeave) ∧
      (C3body.personalLeave = none → C3storedUser.personalLeave = 0 →
        w.personalLeave = 14) :=
  C3_partial_update [C3storedUser] "E1" C3body C3storedUser (by decide)
    (by decide) (by decide) (by decide) (by decide)

/-- C4: a valid account creation that leaves all four quota fields
unspecified stores the default quotas 14 (annual), 30 (sick),
3 (menstrual) and 14 (personal). -/
theorem C4_default_quotas (s : Store) (b : UserBody)
    (hid : truthyS b.employeeId = true) (hname : truthyS b.name = true)
    (hpass : truthyS b.password = true) (hperm : truthyS b.permission = true)
    (hval : validPermissionValues.contains (b.permission.getD "") = true)
    (hfresh : findByEmployeeId s (b.employeeId.getD "") = none)
    (hA : b.annualLeave = none) (hS : b.sickLeave = none)
    (hM : b.menstrualLeave = none) (hP : b.personalLeave = none) :
    (postUser s b).1 = none ∧
    ∃ w, findByEmployeeId (postUser s b).2 (b.employeeId.getD "") = some w ∧
      w.annualLeave = 14 ∧ w.sickLeave = 30 ∧ w.menstrualLeave = 3 ∧
      w.personalLeave = 14 := by
  rw [postUser_success s b hid hname hpass hperm hval hfresh]
  refine ⟨rfl, createdUser b, ?_, ?_, ?_, ?_, ?_⟩
  · exact findByEmployeeId_addUser_self s (createdUser b) hfresh
  · simp [createdUser, numOr, hA]
  · simp [createdUser, numOr, hS]
  · simp [createdUser, numOr, hM]
  · simp [createdUser, numOr, hP]

/-- C4 witness: creating `E2` with no quota fields on the empty store
yields an account with quotas 14, 30, 3, 14. -/
theorem C4_default_quotas_witness :
    (postUser [] C4body).1 = none ∧
    ∃ w, findByEmployeeId (postUser [] C4body).2 "E2" = some w ∧
      w.annualLeave = 14 ∧ w.sickLeave = 30 ∧ w.menstrualLeave = 3 ∧
      w.personalLeave = 14 :=
  C4_default_quotas [] C4body (by decide) (by decide) (by decide) (by decide)
    (by decide) (by decide) rfl rfl rfl rfl

/-- C5: a creation request that passes field validation but whose
`employeeId` already identifies an account fails with `ConflictError` and
leaves the store unchanged.  (A malformed duplicate request fails earlier
with `ValidationError`; the conflict check is reached only after
validation.) -/
theorem C5_duplicate_conflict (s : Store) (b : UserBody) (u : User)
    (hid : truthyS b.employeeId = true) (hname : truthyS b.name = true)
    (hpass : truthyS b.password = true) (hperm : truthyS b.permission = true)
    (hval : validPermissionValues.contains (b.permission.getD "") = true)
    (hdup : findByEmployeeId s (b.employeeId.getD "") = some u) :
    (postUser s b).1 = some RouteError.ConflictError ∧ (postUser s b).2 = s := by
  have hpost : postUser s b = (some RouteError.ConflictError, s) := by
    unfold postUser
    rw [hid, hname, hpass, hperm, hval, hdup]
    simp
  exact ⟨by rw [hpost], by rw [hpost]⟩

/-- C5 witness: re-creating the existing `E1` fails with `ConflictError`
and leaves the one-account store unchanged. -/
theorem C5_duplicate_conflict_witness :
    (postUser [⟨"E1", "n", "p", "admin", 14, 30, 3, 14⟩] C5body).1
        = some RouteError.ConflictError ∧
    (postUser [⟨"E1", "n", "p", "admin", 14, 30, 3, 14⟩] C5body).2
        = [⟨"E1", "n", "p", "admin", 14, 30, 3, 14⟩] :=
  C5_duplicate_conflict [⟨"E1", "n", "p", "admin", 14, 30, 3, 14⟩] C5body
    ⟨"E1", "n", "p", "admin", 14, 30, 3, 14⟩ (by decide) (by decide) (by decide)
    (by decide) (by decide) (by decide)

/-- C6: a create or update whose permission field is present but neither
`employee` nor `admin` fails with `ValidationError` and leaves the store
unchanged, for both routes. -/
theorem C6_invalid_permission (s : Store) (eid : String) (b : UserBody) (p : String)
    (hp : b.permission = some p)
    (hinv : validPermissionValues.contains p = false) :
    (postUser s b).1 = some RouteError.ValidationError ∧ (postUser s b).2 = s ∧
    (putUser s eid b).1 = some RouteError.ValidationError ∧
    (putUser s eid b).2 = s := by
  have hgd : b.permission.getD "" = p := by rw [hp]; rfl
  have hpost : postUser s b = (some RouteError.ValidationError, s) := by
    unfold postUser
    by_cases hc : (!truthyS b.employeeId || !truthyS b.name
        || !truthyS b.password || !truthyS b.permission) = true
    · rw [if_pos hc]
    · rw [if_neg hc, hgd, hinv]
      simp
  have hput : putUser s eid b = (some RouteError.ValidationError, s) := by
    unfold putUser
    by_cases hc : (!truthyS b.name || !truthyS b.password
        || !truthyS b.permission) = true
    · rw [if_pos hc]
    · rw [if_neg hc, hgd, hinv]
      simp
  exact ⟨by rw [hpost], by rw [hpost], by rw [hput], by rw [hput]⟩

/-- C6 witness: permission value `boss` is rejected by both routes on a
one-account store, which stays unchanged. -/
theorem C6_invalid_permission_witness :
    (postUser [⟨"E1", "n", "p", "admin", 14, 30, 3, 14⟩] C6body).1
        = some RouteError.ValidationError ∧
    (postUser [⟨"E1", "n", "p", "admin", 14, 30, 3, 14⟩] C6body).2
        = [⟨"E1", "n", "p", "admin", 14, 30, 3, 14⟩] ∧
    (putUser [⟨"E1", "n", "p", "admin", 14, 30, 3, 14⟩] "E1" C6body).1
        = some RouteError.ValidationError ∧
    (putUser [⟨"E1", "n", "p", "admin", 14, 30, 3, 14⟩] "E1" C6body).2
        = [⟨"E1", "n", "p", "admin", 14, 30, 3, 14⟩] :=
  C6_invalid_permission [⟨"E1", "n", "p", "admin", 14, 30, 3, 14⟩] "E1" C6body
    "boss" rfl (by decide)

/-- C7: an update that passes field validation, and any delete, targeting
an `employeeId` with no account fail with `NotFoundError` and leave the
store unchanged. -/
theorem C7_unknown_target (s : Store) (eid caller : String) (b : UserBody)
    (hname : truthyS b.name = true) (hpass : truthyS b.password = true)
    (hperm : truthyS b.permission = true)
    (hval : validPermissionValues.contains (b.permission.getD "") = true)
    (hmiss : findByEmployeeId s eid = none) :
    (putUser s eid b).1 = some RouteError.NotFoundError ∧
    (putUser s eid b).2 = s ∧
    (deleteRoute s caller eid).1 = some RouteError.NotFoundError ∧
    (deleteRoute s caller eid).2 = s := by
  have hput : putUser s eid b = (some RouteError.NotFoundError, s) := by
    unfold putUser
    rw [hname, hpass, hperm, hval, hmiss]
    simp
  have hdel : deleteRoute s caller eid = (some RouteError.NotFoundError, s) := by
    unfold deleteRoute
    rw [hmiss]
  exact ⟨by rw [hput], by rw [hput], by rw [hdel], by rw [hdel]⟩

/-- C7 witness: updating and deleting the absent `E9` on a one-account
store fails with `NotFoundError` and changes nothing. -/
theorem C7_unknown_target_witness :
    (putUser [⟨"E1", "n", "p", "admin", 14, 30, 3, 14⟩] "E9" C7body).1
        = some RouteError.NotFoundError ∧
    (putUser [⟨"E1", "n", "p", "admin", 14, 30, 3, 14⟩] "E9" C7body).2
        = [⟨"E1", "n", "p", "admin", 14, 30, 3, 14⟩] ∧
    (deleteRoute [⟨"E1", "n", "p", "admin", 14, 30, 3, 14⟩] "E1" "E9").1
        = some RouteError.NotFoundError ∧
    (deleteRoute [⟨"E1", "n", "p", "admin", 14, 30, 3, 14⟩] "E1" "E9").2
        = [⟨"E1", "n", "p", "admin", 14, 30, 3, 14⟩] :=
  C7_unknown_target [⟨"E1", "n", "p", "admin", 14, 30, 3, 14⟩] "E9" "E1" C7body
    (by decide) (by decide) (by decide) (by decide) (by decide)

/-- C10: a valid account creation that explicitly supplies `0` for a quota
field stores that category's default (14, 30, 3 or 14) instead of `0`,
because the handler applies the JavaScript `|| default` fallback, for
which `0` is falsy. -/
theorem C10_zero_quota_reset (s : Store) (b : UserBody)
    (hid : truthyS b.employeeId = true) (hname : truthyS b.name = true)
    (hpass : truthyS b.password = true) (hperm : truthyS b.permission = true)
    (hval : validPermissionValues.contains (b.permission.getD "") = true)
    (hfresh : findByEmployeeId s (b.employeeId.getD "") = none) :
    (postUser s b).1 = none ∧
    ∃ w, findByEmployeeId (postUser s b).2 (b.employeeId.getD "") = some w ∧
      (b.annualLeave = some 0 → w.annualLeave = 14) ∧
      (b.sickLeave = some 0 → w.sickLeave = 30) ∧
      (b.menstrualLeave = some 0 → w.menstrualLeave = 3) ∧
      (b.personalLeave = some 0 → w.personalLeave = 14) := by
  rw [postUser_success s b hid hname hpass hperm hval hfresh]
  refine ⟨rfl, createdUser b, ?_, ?_, ?_, ?_, ?_⟩
  · exact findByEmployeeId_addUser_self s (createdUser b) hfresh
  · intro h; simp [createdUser, numOr, h]
  · intro h; simp [createdUser, numOr, h]
  · intro h; simp [createdUser, numOr, h]
  · intro h; simp [createdUser, numOr, h]

/-- C10 witness: creating `E2` with all four quota fields explicitly `0`
stores 14, 30, 3 and 14. -/
theorem C10_zero_quota_reset_witness :
    (postUser [] C10body).1 = none ∧
    ∃ w, findByEmployeeId (postUser [] C10body).2 "E2" = some w ∧
      (C10body.annualLeave = some 0 → w.annualLeave = 14) ∧
      (C10body.sickLeave = some 0 → w.sickLeave = 30) ∧
      (C10body.menstrualLeave = some 0 → w.menstrualLeave = 3) ∧
      (C10body.personalLeave = some 0 → w.personalLeave = 14) :=
  C10_zero_quota_reset [] C10body (by decide) (by decide) (by decide)
    (by decide) (by decide) (by decide)

/-- C8: a change-password submission is rejected by the client-side
validation, and not sent to the server, whenever the new password has
fewer than 4 characters or equals the current password; a submission that
passes validation sends exactly the current and new password, with the new
password at least 4 characters long and different from the current one. -/
theorem C8_change_password_validation (f : ChangePasswordFormData) :
    (f.newPassword.length < 4 → handleSubmit f = none) ∧
    (f.newPassword = f.currentPassword → handleSubmit f = none) ∧
    (∀ c n, handleSubmit f = some (c, n) →
      c = f.currentPassword ∧ n = f.newPassword ∧ 4 ≤ n.length ∧ n ≠ c) := by
  refine ⟨?_, ?_, ?_⟩
  · intro hlen
    unfold handleSubmit formPasses validateForm
    by_cases hc : (f.currentPassword == f.newPassword) = true
    · simp [hc]
    · by_cases ht : (jsTrim f.newPassword == "") = true
      · simp [hc, ht]
      · simp [hc, ht, hlen]
  · intro heq
    have hc : (f.currentPassword == f.newPassword) = true := by
      simp [heq]
    unfold handleSubmit formPasses validateForm
    simp [hc]
  · intro c n h
    unfold handleSubmit at h
    by_cases hp : formPasses f = true
    · rw [if_pos hp] at h
      have hcn : c = f.currentPassword ∧ n = f.newPassword := by
        have h' := Option.some.inj h
        exact ⟨congrArg Prod.fst h'.symm, congrArg Prod.snd h'.symm⟩
      obtain ⟨hc, hn⟩ := hcn
      have hnp : (validateForm f).newPassword = none := by
        unfold formPasses at hp
        have h1 := (Bool.and_eq_true _ _).mp hp
        have h2 := (Bool.and_eq_true _ _).mp h1.1
        simpa using h2.2
      have hne : f.currentPassword ≠ f.newPassword := by
        intro he
        have hb : (f.currentPassword == f.newPassword) = true := by
          simp [he]
        unfold validateForm at hnp
        simp [hb] at hnp
      have hlen : ¬ f.newPassword.length < 4 := by
        intro hl
        unfold validateForm at hnp
        by_cases hb : (f.currentPassword == f.newPassword) = true
        · simp [hb] at hnp
        · by_cases ht : (jsTrim f.newPassword == "") = true
          · simp [hb, ht] at hnp
          · simp [hb, ht, hl] at hnp
      subst hc
      subst hn
      exact ⟨rfl, rfl, Nat.not_lt.mp hlen, fun he => hne he.symm⟩
    · rw [if_neg hp] at h
      cases h

/-- C8 witness: a 2-character new password is not sent; a valid
4-character new password is sent as entered. -/
theorem C8_change_password_validation_witness :
    handleSubmit ⟨"abcd", "ab", "ab"⟩ = none ∧
    handleSubmit ⟨"abcd", "abcd", "abcd"⟩ = none ∧
    ("efgh" = "efgh" ∧ 4 ≤ "efgh".length ∧ "efgh" ≠ "abcd") :=
  ⟨(C8_change_password_validation ⟨"abcd", "ab", "ab"⟩).1 (by decide),
   (C8_change_password_validation ⟨"abcd", "abcd", "abcd"⟩).2.1 rfl,
   by
    have h := (C8_change_password_validation ⟨"abcd", "efgh", "efgh"⟩).2.2
      "abcd" "efgh" (by decide)
    exact ⟨h.2.1, h.2.2.1, h.2.2.2⟩⟩

/-- C9: every error outcome of the create, update and delete routes leaves
the account store exactly as it was (no partial state is committed). -/
theorem C9_no_partial_state (s : Store) (b : UserBody) (eid caller : String) :
    ((postUser s b).1.isSome = true → (postUser s b).2 = s) ∧
    ((putUser s eid b).1.isSome = true → (putUser s eid b).2 = s) ∧
    ((deleteRoute s caller eid).1.isSome = true → (deleteRoute s caller eid).2 = s) := by
  refine ⟨?_, ?_, ?_⟩
  · unfold postUser
    split
    · intro _; rfl
    · split
      · intro _; rfl
      · split
        · intro _; rfl
        · intro h; simp at h
  · unfold putUser
    split
    · intro _; rfl
    · split
      · intro _; rfl
      · split
        · intro _; rfl
        · intro h; simp at h
  · unfold deleteRoute
    split
    · intro _; rfl
    · split
      · intro _; rfl
      · intro h; simp at h

/-- C9 witness: concrete error outcomes (validation failure on create and
update, missing target on delete) leave the empty store unchanged. -/
theorem C9_no_partial_state_witness :
    (postUser [] {}).2 = [] ∧ (putUser [] "E1" {}).2 = []
      ∧ (deleteRoute [] "A1" "E1").2 = [] :=
  ⟨(C9_no_partial_state [] {} "E1" "A1").1 (by decide),
   (C9_no_partial_state [] {} "E1" "A1").2.1 (by decide),
   (C9_no_partial_state [] {} "E1" "A1").2.2 (by decide)⟩

end TaiXiang
